import Mathlib

/-!
Verification of the Virtual Dependency Engine of `extended-mypy-django-plugin`.

The engine (class-graph closure, virtual dependency construction, naming,
report rendering/combination and installation) lives in the package
`extended_mypy_django_plugin.django_analysis.virtual_dependencies`, whose code
is not part of this source snapshot; only its tests
(`tests/django_analysis/virtual_dependencies/test_folder.py`), its protocol
declarations and its callers are.  Those engine pieces are therefore modelled
from the specification (with the repository's own test fixture as the binding
reference where the two disagree), while the mypy-plugin side
(`_plugin/analyze.py`, `_plugin/annotation_resolver.py`) is embedded directly
from the source.
-/

namespace VirtualDeps

/-! ## Naming / fingerprint (spec §4.2) -/

/-- UTF-8 encoding of a single character as a list of byte values. -/
def charUtf8Bytes (c : Char) : List Nat :=
  let n := c.toNat
  if n < 0x80 then [n]
  else if n < 0x800 then
    [0xC0 ||| (n >>> 6), 0x80 ||| (n &&& 0x3F)]
  else if n < 0x10000 then
    [0xE0 ||| (n >>> 12), 0x80 ||| ((n >>> 6) &&& 0x3F), 0x80 ||| (n &&& 0x3F)]
  else
    [0xF0 ||| (n >>> 18), 0x80 ||| ((n >>> 12) &&& 0x3F),
     0x80 ||| ((n >>> 6) &&& 0x3F), 0x80 ||| (n &&& 0x3F)]

/-- UTF-8 encoding of a string as a list of byte values (`str.encode()`). -/
def stringUtf8Bytes (s : String) : List Nat :=
  s.data.foldr (fun c acc => charUtf8Bytes c ++ acc) []

/-- Modelled from the spec: the reference `checksum` used by the engine's
`VirtualDependencyNamer` is `zlib.adler32` over the UTF-8 encoding of the real
module path (spec §4.2 calls it "a fast, stable, non-cryptographic hash
producing a fixed-width numeric string"; the fixture values in
`test_folder.py` pin it to adler32). -/
def adler32_hash (s : String) : Nat :=
  let p := (stringUtf8Bytes s).foldl
    (fun (p : Nat × Nat) (b : Nat) => ((p.1 + b) % 65521, (p.2 + p.1 + b) % 65521))
    (1, 0)
  p.2 * 65536 + p.1

/-- Modelled from the spec: §4.2
`synthetic_name(namespace, real_path) = namespace + "." + "mod_" + checksum(real_path)`;
the engine's `VirtualDependencyNamer` (absent from this snapshot) applies its
configured hasher to the real module path and prefixes the namespace. -/
def syntheticName (ns : String) (hasher : String → Nat) (realPath : String) : String :=
  ns ++ "." ++ "mod_" ++ toString (hasher realPath)

/-! ## Data model (spec §3) -/

/-- Modelled from the spec: §3 "Entity" — a model class, identified by its
dotted import path, with an abstract flag, the entities its fields/managers
point at, and its direct abstract parents.  Owned by discovery. -/
structure Model where
  import_path : String
  is_abstract : Bool
  related : List String
  parents : List String
deriving DecidableEq

/-- Modelled from the spec: §3 "Module" — identity is the dotted import path;
attributes are the installed flag and the entities it directly defines. -/
structure Module where
  import_path : String
  installed : Bool
  defined_models : List Model
deriving DecidableEq

/-- Modelled from the spec: §3 "DiscoveredProject" — the full graph: all
modules, plus the discovery-computed index from entity import path to its
transitive concrete descendants (computed once by discovery and immutable for
the duration of one engine run). -/
structure DiscoveredProject where
  modules : List Module
  descendants : List (String × List String)
deriving DecidableEq

/-- The discovery-owned descendants index, total with default `[]`. -/
def DiscoveredProject.descendantsOf (proj : DiscoveredProject) (p : String) : List String :=
  (proj.descendants.lookup p).getD []

/-- Whether an entity belongs to a currently-active ("installed") module. -/
def DiscoveredProject.entityInstalled (proj : DiscoveredProject) (p : String) : Bool :=
  proj.modules.any fun m => m.installed && m.defined_models.any fun md => md.import_path = p

/-- Find an entity's record anywhere in the project. -/
def DiscoveredProject.lookupModel (proj : DiscoveredProject) (p : String) : Option Model :=
  (proj.modules.foldr (fun m acc => m.defined_models ++ acc) []).find?
    fun md => md.import_path = p

/-- Lexicographic sort with duplicates removed: the canonical ordering used
"everywhere a list is produced" (spec §4.1). -/
def sortDedup (l : List String) : List String :=
  l.dedup.insertionSort (· ≤ ·)

/-! ## Class graph / closure (spec §4.1) -/

/-- Modelled from the spec: §4.1 query (1) — for an abstract entity, its
ordered, deduplicated list of concrete descendants restricted to entities
belonging to currently-active modules.  Closure is taken over the full graph
(the discovery index) and then filtered by active-module membership. -/
def concreteDescendants (proj : DiscoveredProject) (entity : String) : List String :=
  sortDedup ((proj.descendantsOf entity).filter (proj.entityInstalled ·))

/-- One-hop neighbours of an entity in the relation graph: the entities its
fields/managers point at, its direct abstract parents, and its descendants. -/
def entityNeighbours (proj : DiscoveredProject) (entity : String) : List String :=
  ((proj.lookupModel entity).elim [] fun md => md.related ++ md.parents)
    ++ proj.descendantsOf entity

/-- One closure step: the current frontier together with every neighbour. -/
def closureStep (proj : DiscoveredProject) (cur : List String) : List String :=
  (cur ++ cur.foldr (fun e acc => entityNeighbours proj e ++ acc) []).dedup

/-- Fuelled iteration of `closureStep`. -/
def closureIter (proj : DiscoveredProject) : Nat → List String → List String
  | 0, cur => cur
  | n + 1, cur => closureIter proj n (closureStep proj cur)

/-- Enough fuel for the closure to reach a fixpoint: every entity path
mentioned anywhere in the project. -/
def DiscoveredProject.fuel (proj : DiscoveredProject) : Nat :=
  (proj.modules.foldr
    (fun m acc =>
      m.defined_models.foldr
        (fun md acc2 => md.import_path :: md.related ++ md.parents ++ acc2) acc)
    (proj.descendants.foldr (fun pr acc => pr.1 :: pr.2 ++ acc) [])).length

/-- Modelled from the spec: §4.1 query (2) — the full transitive set of entity
paths a module relates to: the entities it defines, the entities those
entities' fields/managers point at, and ancestors/descendants thereof; sorted
lexicographically and deduplicated. -/
def allRelatedModels (proj : DiscoveredProject) (m : Module) : List String :=
  sortDedup (closureIter proj proj.fuel (m.defined_models.map Model.import_path))

/-! ## Virtual dependency construction (spec §4.3) -/

/-- Modelled from the spec: §3 "VirtualDependencySummary" — synthetic import
path, real module import path, installed-apps hash, ordered significant-info
strings. -/
structure VirtualDependencySummary where
  virtual_dependency_name : String
  module_import_path : String
  installed_apps_hash : String
  significant_info : List String
deriving DecidableEq

/-- Modelled from the spec: §3 "VirtualDependency" — one per module, never
mutated after construction. -/
structure VirtualDependency where
  module : Module
  interface_differentiator : String
  summary : VirtualDependencySummary
  all_related_models : List String
  concrete_models : List (String × List String)
deriving DecidableEq

/-- Modelled from the spec: §4.3 — the `concrete_models` map of one module.
The spec says "for every abstract entity touched by this module's relation
set, … keeping only non-empty results"; the repository's own test fixture
(`test_folder.py` lines 55–335, in particular 252–267) instead keys the map by
exactly the module's *defined* models and keeps empty concrete-descendant
lists (e.g. `{"djangoexample.only_abstract.models.AnAbstract": []}`), so this
model follows the fixture. -/
def concreteModelsFor (proj : DiscoveredProject) (m : Module) : List (String × List String) :=
  m.defined_models.map fun md => (md.import_path, concreteDescendants proj md.import_path)

/-- Modelled from the spec: §4.3 `VirtualDependency.create` — assemble one
record from the discovered project, one module, the naming configuration, the
installed-apps hash, the differentiator and the significant-info strategy. -/
def VirtualDependency.create (proj : DiscoveredProject) (ns : String)
    (hasher : String → Nat) (installedAppsHash : String) (differentiator : String)
    (sig : Module → List (String × List String) → List String)
    (m : Module) : VirtualDependency :=
  let concrete := concreteModelsFor proj m
  { module := m
    interface_differentiator := differentiator
    summary :=
      { virtual_dependency_name := syntheticName ns hasher m.import_path
        module_import_path := m.import_path
        installed_apps_hash := installedAppsHash
        significant_info := sig m concrete }
    all_related_models := allRelatedModels proj m
    concrete_models := concrete }

/-- Modelled from the spec: §4.3 `VirtualDependencyGenerator` — iterates every
module of the discovered project and invokes `VirtualDependency.create` for
each, returning a mapping real import path → virtual dependency; no module is
skipped. -/
def generateVirtualDependencies (proj : DiscoveredProject) (ns : String)
    (hasher : String → Nat) (installedAppsHash : String) (differentiator : String)
    (sig : Module → List (String × List String) → List String) :
    List (String × VirtualDependency) :=
  proj.modules.map fun m =>
    (m.import_path, VirtualDependency.create proj ns hasher installedAppsHash differentiator sig m)

/-! ## Report rendering & combination (spec §4.4, §3 "Report") -/

/-- Modelled from the spec: §4.4 — one `register_model` call captures the real
entity, the synthetic module, the two alias names the resolver will later look
up, and the concrete entity list. -/
structure ModelReg where
  model_import_path : String
  virtual_import_path : String
  concrete_name : String
  concrete_queryset_name : String
  concrete_models : List String
deriving DecidableEq

/-- Modelled from the spec: §3 "Report"/"CombinedReport" — the
`(real_module, synthetic_module)` associations from `register_module` calls
and the per-entity registrations from `register_model` calls, as sets (the
merge "must not depend on the order artifacts were rendered", spec §4.4). -/
structure EngineReport where
  modules : Finset (String × String)
  models : Finset ModelReg
deriving DecidableEq

/-- Modelled from the spec: §4.4 `ReportCombiner(reports).combine()` — merge
the per-module reports of one run into a single combined report by unioning
their registrations (the test double in `test_folder.py` lines 375–384 merges
with set union as well). -/
def combineReports (reports : List EngineReport) : EngineReport :=
  { modules := reports.foldr (fun r acc => r.modules ∪ acc) ∅
    models := reports.foldr (fun r acc => r.models ∪ acc) ∅ }

/-! ## Combined report lookups (spec §6, `protocols.Report`) -/

/-- Modelled from the spec: §6 — the combined report's lookup state: for each
entity import path, the concrete-union alias and the concrete
default-collection-accessor (queryset) alias, when they exist. -/
structure CombinedAliasReport where
  concrete_aliases : List (String × String)
  queryset_aliases : List (String × String)

/-- Modelled from the spec: `Report.get_concrete_aliases`
(`_plugin/protocols.py` lines 73–79): given import paths to some models,
return a map of those models to a type alias with the concrete models for
that model; if concrete models cannot be found for a model its entry is given
as `none`. -/
def getConcreteAliases (cr : CombinedAliasReport) (models : List String) :
    List (String × Option String) :=
  models.map fun m => (m, cr.concrete_aliases.lookup m)

/-- Modelled from the spec: `Report.get_queryset_aliases`
(`_plugin/protocols.py` lines 81–87), the queryset-alias analogue. -/
def getQuerysetAliases (cr : CombinedAliasReport) (models : List String) :
    List (String × Option String) :=
  models.map fun m => (m, cr.queryset_aliases.lookup m)

/-! ## Installer (spec §4.5, §3 "WrittenVirtualDependency") -/

/-- Modelled from the spec: §3 "WrittenVirtualDependency" — the rendering
output: literal artifact content, a content fingerprint ("summary hash"), the
per-module report, and the synthetic import path. -/
structure WrittenVirtualDependency (R : Type) where
  content : String
  summary_hash : String
  report : R
  virtual_import_path : String
deriving DecidableEq

/-- Modelled from the spec: §4.4 `ReportFactory.deploy_scribes` — one
`WrittenVirtualDependency` per entry of the virtual dependency map, in the
map's iteration order, produced by the injected rendering strategy. -/
def deployScribes {R : Type} (render : VirtualDependency → WrittenVirtualDependency R)
    (vmap : List (String × VirtualDependency)) : List (WrittenVirtualDependency R) :=
  vmap.map fun pr => render pr.2

/-- An observable side effect of the installer: one `write_report` call or one
`install_reports` call, with the arguments it received. -/
inductive InstallEvent where
  | writeReport (scratch_root : String) (summary_hash : String)
      (virtual_import_path : String) (content : String)
  | installReports (scratch_root : String) (destination : String)
deriving DecidableEq

/-- The filesystem-visible state the installer acts on: the event trace plus
the artifact files under the scratch root and under the destination (path
paired with content). -/
structure InstallerState where
  events : List InstallEvent
  scratchFiles : List (String × String)
  destFiles : List (String × String)
deriving DecidableEq

/-- Modelled from the spec: §4.5 step 2 — one `write_report` call: record the
rendered content and summary hash against the synthetic import path under the
scratch root.  Failure (`writeFails`) models an installer I/O error, which
propagates (spec §7). -/
def runWriteReport {R : Type} (writeFails : String → Bool) (scratchRoot : String)
    (w : WrittenVirtualDependency R) (st : InstallerState) :
    Except String InstallerState :=
  if writeFails w.virtual_import_path then
    .error ("write_report failed: " ++ w.virtual_import_path)
  else
    .ok { st with
      events := st.events
        ++ [.writeReport scratchRoot w.summary_hash w.virtual_import_path w.content]
      scratchFiles := st.scratchFiles ++ [(w.virtual_import_path, w.content)] }

/-- The installer's single streaming pass: write each rendered artifact and
accumulate its per-module report, aborting on the first failure. -/
def installerLoop {R : Type} (writeFails : String → Bool) (scratchRoot : String) :
    List (WrittenVirtualDependency R) → InstallerState → List R →
    Except String Unit × InstallerState × List R
  | [], st, reps => (.ok (), st, reps)
  | w :: rest, st, reps =>
    match runWriteReport writeFails scratchRoot w st with
    | .error e => (.error e, st, reps)
    | .ok st2 => installerLoop writeFails scratchRoot rest st2 (reps ++ [w.report])

/-- Modelled from the spec: §4.5 `VirtualDependencyInstaller` — deploy the
scribes over the full map (streaming), `write_report` each artifact into the
scratch root, combine the accumulated reports, then `install_reports` once,
atomically replacing the destination content with the scratch content; return
the combined report.  Failure at a write or at the install aborts the run and
leaves the destination untouched. -/
def virtualDependencyInstaller {R : Type} (writeFails : String → Bool)
    (installFails : Bool) (combineFn : List R → R)
    (render : VirtualDependency → WrittenVirtualDependency R)
    (vmap : List (String × VirtualDependency))
    (scratchRoot destination : String) (st : InstallerState) :
    Except String R × InstallerState :=
  match installerLoop writeFails scratchRoot (deployScribes render vmap) st [] with
  | (.error e, st2, _) => (.error e, st2)
  | (.ok _, st2, reports) =>
    if installFails then (.error "install_reports failed", st2)
    else
      (.ok (combineFn reports),
       { st2 with
          events := st2.events ++ [.installReports scratchRoot destination]
          destFiles := st2.scratchFiles })

end VirtualDeps

namespace MypyPlugin

/-- The fragment of mypy's type representation the plugin manipulates
(`mypy.types`): unbound types with arguments, `type[...]` wrappers, type
variables, instances, unions, `Any`, and a coarse bucket for every other
proper type. -/
inductive MType where
  | unbound (name : String) (args : List MType)
  | typeType (item : MType)
  | typeVar (fullname : String) (name : String)
  | inst (fullname : String) (args : List MType)
  | union (items : List MType)
  | anyT
  | other

/-- The two concrete annotations the plugin knows
(`protocols.KnownAnnotations`). -/
inductive KnownAnnotations where
  | concrete
  | defaultQuerySet

/-- The `.args` of an analyzed annotation (`ctx.type.args` in
`Analyzer.analyze_type`). -/
def typeArgs : MType → List MType
  | .unbound _ args => args
  | .inst _ args => args
  | _ => []

/-- `extended_mypy_django_plugin.annotations.T_Parent`, the type variable the
plugin skips while `Concrete` itself is being analyzed. -/
def tParentName : String := "extended_mypy_django_plugin.annotations.T_Parent"

mutual

/-- `Analyzer._has_typevars` (`analyze.py` lines 22–32): unwrap one
`type[...]`, report type variables, and recurse through unions. -/
def hasTypeVars : MType → Bool
  | .typeType (.typeVar _ _) => true
  | .typeType (.union items) => hasTypeVarsList items
  | .typeType _ => false
  | .typeVar _ _ => true
  | .union items => hasTypeVarsList items
  | _ => false

/-- `any(self._has_typevars(get_proper_type(item)) for item in items)`. -/
def hasTypeVarsList : List MType → Bool
  | [] => false
  | t :: ts => hasTypeVars t || hasTypeVarsList ts

end

/-- `Analyzer.analyze_type` (`analyze.py` lines 34–73).  The collaborators are
parameters: `apiAnalyze` is `get_proper_type(ctx.api.analyze_type ·)`,
`rewrap` is `resolver.rewrap_type_var` and `resolve` is `resolver.resolve`
(each `none` when the Python method returns `None`).  The result pairs the
returned type with the `ctx.api.fail` messages emitted by `analyze_type`
itself. -/
def analyzeType (apiAnalyze : MType → MType)
    (rewrap : KnownAnnotations → MType → Option MType)
    (resolve : KnownAnnotations → MType → Option MType)
    (annot : KnownAnnotations) (ctxType : MType) : MType × List String :=
  match typeArgs ctxType with
  | [arg] =>
    let modelType := apiAnalyze arg
    let proceed : MType × List String :=
      if hasTypeVars modelType then
        match rewrap annot modelType with
        | none => (ctxType, [])
        | some wrapped => (wrapped, [])
      else
        match resolve annot modelType with
        | none => (ctxType, [])
        | some resolved => (resolved, [])
    match modelType with
    | .typeType (.typeVar fullname _) =>
      if fullname = tParentName then (ctxType, []) else proceed
    | .typeVar fullname _ =>
      if fullname = tParentName then (ctxType, []) else proceed
    | _ => proceed
  | _ => (ctxType, ["Concrete annotations must contain exactly one argument"])

mutual

/-- `AnnotationResolver._flatten_union` (`annotation_resolver.py` lines
188–196): recursively flatten nested unions. -/
def flattenUnion : MType → List MType
  | .union items => flattenUnionList items
  | t => [t]

def flattenUnionList : List MType → List MType
  | [] => []
  | t :: ts => flattenUnion t ++ flattenUnionList ts

end

/-- `isinstance(item, Instance)`. -/
def isInst : MType → Bool
  | .inst _ _ => true
  | _ => false

/-- `isinstance(found, AnyType)`. -/
def isAny : MType → Bool
  | .anyT => true
  | _ => false

/-- `isinstance(found, UnionType)`. -/
def isUnion : MType → Bool
  | .union _ => true
  | _ => false

/-- `item.type.fullname` of an instance (unused constructors give `""`). -/
def instFullname : MType → String
  | .inst fullname _ => fullname
  | _ => ""

/-- `item.__class__.__name__`, used in the non-instance failure message. -/
def clsName : MType → String
  | .unbound _ _ => "UnboundType"
  | .typeType _ => "TypeType"
  | .typeVar _ _ => "TypeVarType"
  | .inst _ _ => "Instance"
  | .union _ => "UnionType"
  | .anyT => "AnyType"
  | .other => "ProperType"

/-- `item if isinstance(item, TypeType) else TypeType(item)`. -/
def wrapTypeType : MType → MType
  | t@(.typeType _) => t
  | t => .typeType t

/-- `AnnotationResolver._make_union` (`annotation_resolver.py` lines
250–267): wrap every instance in `type[...]` when `is_type`, then return the
sole item when the list has exactly one element and the union of all of them
otherwise. -/
def makeUnion (isType : Bool) (instances : List MType) : MType :=
  let items := if isType then instances.map wrapTypeType else instances
  match items with
  | [single] => single
  | items2 => .union items2

/-- `AnnotationResolver._instances_from_aliases` (`annotation_resolver.py`
lines 269–280): look the queried models up through the alias getter, emit a
failure for an absent (`None`) alias or an alias whose lookup fails, and
collect the instances behind every resolvable alias.  `lookupAlias` models
`self.lookup_alias` (`none` standing for its `AssertionError` path). -/
def instancesFromAliases (lookupAlias : String → Option (List MType))
    (getAliases : List String → List (String × Option String))
    (models : List String) : List MType × List String :=
  (getAliases models).foldl
    (fun acc pr =>
      match pr.2 with
      | none =>
        (acc.1, acc.2 ++ ["Failed to find concrete alias instance for " ++ pr.1])
      | some aliasName =>
        match lookupAlias aliasName with
        | none =>
          (acc.1, acc.2 ++ ["Failed to create concrete alias instance for " ++ pr.1])
        | some insts => (acc.1 ++ insts, acc.2))
    ([], [])

/-- `AnnotationResolver._concrete_for` (`annotation_resolver.py` lines
198–248): unwrap `type[...]`, reject `Any`, reject non-instance/non-union
model types, flatten unions, reject when any flattened member is not an
instance, collect the concrete instances behind every member's aliases, and
build the result with `_make_union`.  `deferred` models the boolean returned
by `self._defer()`. -/
def concreteFor (deferred : Bool) (lookupAlias : String → Option (List MType))
    (getAliases : List String → List (String × Option String))
    (modelType : MType) : Option MType × List String :=
  let isType := match modelType with | .typeType _ => true | _ => false
  let found := match modelType with | .typeType item => item | t => t
  if isAny found then (none, ["Tried to use concrete annotations on a typing.Any"])
  else if !(isInst found || isUnion found) then (none, [])
  else
    let allTypes := flattenUnion found
    let instErrs := (allTypes.filter fun t => !(isInst t)).map
      fun t => "Expected to operate on specific classes, got a " ++ clsName t
    if allTypes.any fun t => !(isInst t) then (none, instErrs)
    else
      let allInstances := allTypes.filter isInst
      let names := String.intercalate ", " (allInstances.map instFullname)
      let folded := allInstances.foldl
        (fun acc item =>
          let r := instancesFromAliases lookupAlias getAliases [instFullname item]
          (acc.1 ++ r.1, acc.2 ++ r.2))
        (([] : List MType), ([] : List String))
      match folded.1 with
      | [] =>
        (none, folded.2
          ++ if deferred then [] else ["No concrete models found for " ++ names])
      | concrete => (some (makeUnion isType concrete), folded.2)

end MypyPlugin

open VirtualDeps

/-- Fixture mirroring `test_folder.py` lines 252–267: the module
`djangoexample.only_abstract.models` defines a single abstract entity with no
concrete descendants. -/
def anAbstractPath : String := "djangoexample.only_abstract.models.AnAbstract"

def anAbstract : VirtualDeps.Model :=
  { import_path := anAbstractPath, is_abstract := true, related := [], parents := [] }

def onlyAbstractModule : VirtualDeps.Module :=
  { import_path := "djangoexample.only_abstract.models", installed := true
    defined_models := [anAbstract] }

def onlyAbstractProject : DiscoveredProject :=
  { modules := [onlyAbstractModule], descendants := [(anAbstractPath, [])] }

def onlyAbstractDep : VirtualDependency :=
  VirtualDependency.create onlyAbstractProject "__virtual__" (fun _ => 0) "h" "d"
    (fun _ _ => []) onlyAbstractModule

def onlyAbstractGen : List (String × VirtualDependency) :=
  generateVirtualDependencies onlyAbstractProject "__virtual__" (fun _ => 0) "h" "d"
    (fun _ _ => [])

/-- Fixture mirroring `test_folder.py` lines 323–334: a module defining no
entities at all. -/
def emptyModule : VirtualDeps.Module :=
  { import_path := "djangoexample.empty_models.models", installed := true, defined_models := [] }

def emptyProject : DiscoveredProject :=
  { modules := [emptyModule], descendants := [] }

def emptyDep : VirtualDependency :=
  VirtualDependency.create emptyProject "__virtual__" (fun _ => 0) "h" "d"
    (fun _ _ => []) emptyModule

/-- The empty closure stays empty under one closure step. -/
theorem closureStep_nil (proj : DiscoveredProject) : closureStep proj [] = [] := rfl

/-- The empty closure stays empty under any amount of fuel. -/
theorem closureIter_nil (proj : DiscoveredProject) : ∀ n, closureIter proj n [] = [] := by
  intro n
  induction n with
  | zero => rfl
  | succ n ih => simpa [closureIter, closureStep] using ih

/-- `sortDedup` outputs are sorted by the lexicographic order on strings. -/
theorem sortDedup_sorted (l : List String) : (sortDedup l).Sorted (· ≤ ·) :=
  List.sorted_insertionSort _ _

/-- `sortDedup` outputs contain no duplicates. -/
theorem sortDedup_nodup (l : List String) : (sortDedup l).Nodup :=
  (List.perm_insertionSort _ _).nodup_iff.mpr l.nodup_dedup

/-- C1: for every namespace `ns` and real module path `p`, the synthetic import
path produced by the namer equals `ns ++ "." ++ "mod_" ++ checksum p`, and with
namespace `"__virtual__"` and the reference adler32 checksum the synthetic name
for `"django.contrib.auth.base_user"` is exactly `"__virtual__.mod_2833058650"`. -/
theorem c1_synthetic_name :
    (∀ (ns : String) (hasher : String → Nat) (p : String),
      VirtualDeps.syntheticName ns hasher p = ns ++ "." ++ "mod_" ++ toString (hasher p)) ∧
    VirtualDeps.syntheticName "__virtual__" VirtualDeps.adler32_hash
      "django.contrib.auth.base_user" = "__virtual__.mod_2833058650" := by
  refine ⟨fun ns hasher p => rfl, ?_⟩
  rfl

/-- C2 counterexample: in the `only_abstract` fixture the abstract entity
`AnAbstract` is in the module's relation set and its concrete-descendant query
returns `[]`, yet it is present as a key of the module's `concrete_models`
mapping (with value `[]`), contradicting the claim that such entities are
absent as keys. -/
theorem c2_counterexample :
    anAbstractPath ∈ allRelatedModels onlyAbstractProject onlyAbstractModule ∧
    concreteDescendants onlyAbstractProject anAbstractPath = [] ∧
    anAbstractPath ∈ onlyAbstractDep.concrete_models.map Prod.fst ∧
    onlyAbstractDep.concrete_models.lookup anAbstractPath = some [] := by
  decide

/-- C2 (amended): after virtual dependency construction, a module's
`concrete_models` mapping is keyed by exactly the module's defined models —
each mapped to its concrete-descendant query result — so an entity whose query
returns the empty list is kept as a key with value `[]` whenever the module
defines it (and an entity the module does not define is absent as a key
regardless of its query result). -/
theorem c2_concrete_models_keyed_by_defined :
    ∀ (proj : DiscoveredProject) (ns : String) (hasher : String → Nat)
      (iah diff : String) (sig : VirtualDeps.Module → List (String × List String) → List String)
      (m : VirtualDeps.Module) (entity : String),
      (entity ∈ (VirtualDependency.create proj ns hasher iah diff sig m).concrete_models.map Prod.fst
        ↔ entity ∈ m.defined_models.map VirtualDeps.Model.import_path) ∧
      ∀ pr ∈ (VirtualDependency.create proj ns hasher iah diff sig m).concrete_models,
        pr.2 = concreteDescendants proj pr.1 := by
  intro proj ns hasher iah diff sig m entity
  constructor
  · simp [VirtualDependency.create, concreteModelsFor]
  · intro pr hpr
    simp only [VirtualDependency.create, concreteModelsFor, List.mem_map] at hpr
    obtain ⟨md, _, rfl⟩ := hpr
    rfl

/-- C2 witness: the amended statement evaluated on the `only_abstract`
fixture. -/
theorem c2_witness :
    ((anAbstractPath, ([] : List String)) ∈ onlyAbstractDep.concrete_models) ∧
    (anAbstractPath, ([] : List String)).2
      = concreteDescendants onlyAbstractProject (anAbstractPath, ([] : List String)).1 :=
  ⟨by decide,
   (c2_concrete_models_keyed_by_defined onlyAbstractProject "__virtual__" (fun _ => 0)
      "h" "d" (fun _ _ => []) onlyAbstractModule anAbstractPath).2
     (anAbstractPath, ([] : List String)) (by decide)⟩

/-- C3: the generator produces exactly one virtual dependency per discovered
module (the key list equals the module list, so no module is skipped), and any
generated record whose module defines no entities has empty `concrete_models`
and empty `all_related_models`. -/
theorem c3_one_record_per_module :
    ∀ (proj : DiscoveredProject) (ns : String) (hasher : String → Nat)
      (iah diff : String) (sig : VirtualDeps.Module → List (String × List String) → List String),
      ((generateVirtualDependencies proj ns hasher iah diff sig).map Prod.fst
        = proj.modules.map VirtualDeps.Module.import_path) ∧
      ∀ pr ∈ generateVirtualDependencies proj ns hasher iah diff sig,
        pr.2.module.defined_models = [] →
          pr.2.concrete_models = [] ∧ pr.2.all_related_models = [] := by
  intro proj ns hasher iah diff sig
  constructor
  · simp [generateVirtualDependencies]
  · intro pr hpr hdef
    simp only [generateVirtualDependencies, List.mem_map] at hpr
    obtain ⟨m, _, rfl⟩ := hpr
    simp only [VirtualDependency.create] at hdef ⊢
    simp [concreteModelsFor, allRelatedModels, hdef, closureIter_nil, sortDedup]

/-- C3 witness: the statement evaluated on a project holding one module that
defines no entities. -/
theorem c3_witness :
    (("djangoexample.empty_models.models", emptyDep)
        ∈ generateVirtualDependencies emptyProject "__virtual__" (fun _ => 0) "h" "d"
            (fun _ _ => [])) ∧
    emptyDep.module.defined_models = [] ∧
    emptyDep.concrete_models = [] ∧ emptyDep.all_related_models = [] :=
  ⟨by decide, by decide,
   (c3_one_record_per_module emptyProject "__virtual__" (fun _ => 0) "h" "d"
      (fun _ _ => [])).2 ("djangoexample.empty_models.models", emptyDep)
     (by decide) (by decide)⟩

/-- C4: every list produced by the engine — each record's
`all_related_models` and every value list of its `concrete_models` — is sorted
lexicographically by import path (the order on `String` is lexicographic on
its characters) and contains no duplicates. -/
theorem c4_lists_sorted_nodup :
    ∀ (proj : DiscoveredProject) (ns : String) (hasher : String → Nat)
      (iah diff : String) (sig : VirtualDeps.Module → List (String × List String) → List String)
      (pr : String × VirtualDependency),
      pr ∈ generateVirtualDependencies proj ns hasher iah diff sig →
        (pr.2.all_related_models.Sorted (· ≤ ·) ∧ pr.2.all_related_models.Nodup) ∧
        ∀ kv ∈ pr.2.concrete_models, kv.2.Sorted (· ≤ ·) ∧ kv.2.Nodup := by
  intro proj ns hasher iah diff sig pr hpr
  simp only [generateVirtualDependencies, List.mem_map] at hpr
  obtain ⟨m, _, rfl⟩ := hpr
  refine ⟨⟨sortDedup_sorted _, sortDedup_nodup _⟩, ?_⟩
  intro kv hkv
  simp only [VirtualDependency.create, concreteModelsFor, List.mem_map] at hkv
  obtain ⟨md, _, rfl⟩ := hkv
  exact ⟨sortDedup_sorted _, sortDedup_nodup _⟩

/-- C4 witness: the statement evaluated on the `only_abstract` fixture. -/
theorem c4_witness :
    (("djangoexample.only_abstract.models", onlyAbstractDep) ∈ onlyAbstractGen) ∧
    ((anAbstractPath, ([] : List String)) ∈ onlyAbstractDep.concrete_models) ∧
    (onlyAbstractDep.all_related_models.Sorted (· ≤ ·) ∧
      onlyAbstractDep.all_related_models.Nodup) ∧
    (([] : List String).Sorted (· ≤ ·) ∧ ([] : List String).Nodup) := by
  refine ⟨by decide, by decide, ?_, ?_⟩
  · exact (c4_lists_sorted_nodup onlyAbstractProject "__virtual__" (fun _ => 0) "h" "d"
      (fun _ _ => []) ("djangoexample.only_abstract.models", onlyAbstractDep) (by decide)).1
  · exact (c4_lists_sorted_nodup onlyAbstractProject "__virtual__" (fun _ => 0) "h" "d"
      (fun _ _ => []) ("djangoexample.only_abstract.models", onlyAbstractDep) (by decide)).2
      (anAbstractPath, ([] : List String)) (by decide)

/-- Combining reports is invariant under permutation of the report list. -/
theorem combineReports_perm {l₁ l₂ : List EngineReport} (h : l₁.Perm l₂) :
    combineReports l₁ = combineReports l₂ := by
  induction h with
  | nil => rfl
  | cons x h ih =>
    have h1 := congrArg EngineReport.modules ih
    have h2 := congrArg EngineReport.models ih
    simp only [combineReports] at h1 h2 ⊢
    simp [h1, h2]
  | swap x y l =>
    simp [combineReports, Finset.union_left_comm]
  | trans h₁ h₂ ih₁ ih₂ => rw [ih₁, ih₂]

/-- C5: report combination is commutative and order-independent — combining
`[A, B]` equals combining `[B, A]`, and more generally the combined report is
unchanged under any permutation of the per-module report list. -/
theorem c5_combine_order_independent :
    (∀ A B : EngineReport, combineReports [A, B] = combineReports [B, A]) ∧
    ∀ l₁ l₂ : List EngineReport, l₁.Perm l₂ → combineReports l₁ = combineReports l₂ :=
  ⟨fun A B => combineReports_perm (List.Perm.swap B A []),
   fun _ _ h => combineReports_perm h⟩

/-- Concrete per-module reports for evaluating C5. -/
def reportA : EngineReport :=
  { modules := {("M1", "__virtual__.M1")}, models := ∅ }

def reportB : EngineReport :=
  { modules := {("M2", "__virtual__.M2")}, models := ∅ }

/-- C5 witness: order independence evaluated on two concrete reports. -/
theorem c5_witness :
    ([reportA, reportB].Perm [reportB, reportA]) ∧
    combineReports [reportA, reportB] = combineReports [reportB, reportA] :=
  ⟨List.Perm.swap reportB reportA [],
   c5_combine_order_independent.2 [reportA, reportB] [reportB, reportA]
     (List.Perm.swap reportB reportA [])⟩

/-- C8: both alias lookups of the combined report return an entry for every
queried entity import path — the key list of the result equals the query list
— and a path with no recorded alias is mapped to `none` (the absent marker)
rather than being omitted. -/
theorem c8_alias_lookup_total :
    ∀ (cr : CombinedAliasReport) (models : List String),
      ((getConcreteAliases cr models).map Prod.fst = models ∧
       (getQuerysetAliases cr models).map Prod.fst = models) ∧
      ∀ m ∈ models,
        ((m, cr.concrete_aliases.lookup m) ∈ getConcreteAliases cr models ∧
         (m, cr.queryset_aliases.lookup m) ∈ getQuerysetAliases cr models) ∧
        (cr.concrete_aliases.lookup m = none → (m, none) ∈ getConcreteAliases cr models) ∧
        (cr.queryset_aliases.lookup m = none → (m, none) ∈ getQuerysetAliases cr models) := by
  intro cr models
  refine ⟨⟨?_, ?_⟩, ?_⟩
  · simp [getConcreteAliases, Function.comp_def]
  · simp [getQuerysetAliases, Function.comp_def]
  · intro m hm
    refine ⟨⟨List.mem_map_of_mem _ hm, List.mem_map_of_mem _ hm⟩, ?_, ?_⟩
    · intro hnone
      simpa [getConcreteAliases, hnone] using List.mem_map_of_mem
        (f := fun m => (m, cr.concrete_aliases.lookup m)) hm
    · intro hnone
      simpa [getQuerysetAliases, hnone] using List.mem_map_of_mem
        (f := fun m => (m, cr.queryset_aliases.lookup m)) hm

/-- When no write fails, the installer's streaming pass writes every artifact
in order into the scratch root, records one `write_report` event per artifact,
accumulates every report, and leaves the destination untouched. -/
theorem installerLoop_ok {R : Type} (wf : String → Bool) (sr : String) :
    ∀ (deps : List (WrittenVirtualDependency R)) (st : InstallerState) (reps : List R),
      (∀ w ∈ deps, wf w.virtual_import_path = false) →
      installerLoop wf sr deps st reps =
        (.ok (),
         { events := st.events
             ++ deps.map fun w =>
                  .writeReport sr w.summary_hash w.virtual_import_path w.content
           scratchFiles := st.scratchFiles
             ++ deps.map fun w => (w.virtual_import_path, w.content)
           destFiles := st.destFiles },
         reps ++ deps.map fun w => w.report) := by
  intro deps
  induction deps with
  | nil => intro st reps h; simp [installerLoop]
  | cons w rest ih =>
    intro st reps h
    have hw : wf w.virtual_import_path = false := h w (List.mem_cons_self w rest)
    simp only [installerLoop, runWriteReport, hw, Bool.false_eq_true, if_false]
    rw [ih _ _ fun x hx => h x (List.mem_cons_of_mem w hx)]
    simp

/-- The installer's streaming pass never touches the destination, whether or
not a write fails. -/
theorem installerLoop_destFiles {R : Type} (wf : String → Bool) (sr : String) :
    ∀ (deps : List (WrittenVirtualDependency R)) (st : InstallerState) (reps : List R),
      (installerLoop wf sr deps st reps).2.1.destFiles = st.destFiles := by
  intro deps
  induction deps with
  | nil => intro st reps; rfl
  | cons w rest ih =>
    intro st reps
    simp only [installerLoop, runWriteReport]
    cases hw : wf w.virtual_import_path with
    | true => simp [hw]
    | false => simp [hw, ih]

/-- C6: a failure-free installer run calls `write_report` once per written
virtual dependency — recording its content and summary hash against its
synthetic import path under the scratch root, in rendering order — then calls
`install_reports (scratch_root, destination)` exactly once, publishes the
scratch content to the destination, and returns the combination of every
per-module report of the run. -/
theorem c6_installer_protocol :
    ∀ (R : Type) (writeFails : String → Bool) (combineFn : List R → R)
      (render : VirtualDependency → WrittenVirtualDependency R)
      (vmap : List (String × VirtualDependency)) (sr dest : String) (st : InstallerState),
      (∀ w ∈ deployScribes render vmap, writeFails w.virtual_import_path = false) →
      virtualDependencyInstaller writeFails false combineFn render vmap sr dest st =
        (.ok (combineFn ((deployScribes render vmap).map fun w => w.report)),
         { events := st.events
             ++ ((deployScribes render vmap).map fun w =>
                  .writeReport sr w.summary_hash w.virtual_import_path w.content)
             ++ [.installReports sr dest]
           scratchFiles := st.scratchFiles
             ++ (deployScribes render vmap).map fun w => (w.virtual_import_path, w.content)
           destFiles := st.scratchFiles
             ++ (deployScribes render vmap).map fun w => (w.virtual_import_path, w.content) }) := by
  intro R wf combineFn render vmap sr dest st h
  simp only [virtualDependencyInstaller]
  rw [installerLoop_ok wf sr _ st [] h]
  simp [List.append_assoc]

/-- Fixture mirroring `test_folder.py` lines 435–482: two trivial virtual
dependencies `M1`, `M2` and a rendering strategy producing
`CONTENT__/SUMMARY__`-tagged artifacts. -/
def depM1 : VirtualDependency :=
  { module := { import_path := "M1", installed := true, defined_models := [] }
    interface_differentiator := "__differentiated__"
    summary :=
      { virtual_dependency_name := "__virtual__.M1", module_import_path := "M1"
        installed_apps_hash := "__hashed_installed_apps__", significant_info := [] }
    all_related_models := [], concrete_models := [] }

def depM2 : VirtualDependency :=
  { module := { import_path := "M2", installed := true, defined_models := [] }
    interface_differentiator := "__differentiated__"
    summary :=
      { virtual_dependency_name := "__virtual__.M2", module_import_path := "M2"
        installed_apps_hash := "__hashed_installed_apps__", significant_info := [] }
    all_related_models := [], concrete_models := [] }

def installDemoVmap : List (String × VirtualDependency) := [("M1", depM1), ("M2", depM2)]

def installRender : VirtualDependency → WrittenVirtualDependency String := fun vd =>
  { content := "CONTENT__" ++ vd.summary.module_import_path
    summary_hash := "SUMMARY__" ++ vd.summary.module_import_path
    report := vd.summary.module_import_path
    virtual_import_path := vd.summary.virtual_dependency_name }

/-- C6 witness: the installer protocol evaluated on the two-module fixture
with no failures. -/
theorem c6_witness :
    (∀ w ∈ deployScribes installRender installDemoVmap,
        (fun (_ : String) => false) w.virtual_import_path = false) ∧
    virtualDependencyInstaller (fun _ => false) false String.join installRender
        installDemoVmap "scratch" "dest" ⟨[], [], []⟩ =
      (.ok (String.join ((deployScribes installRender installDemoVmap).map fun w => w.report)),
       { events := (InstallerState.mk [] [] []).events
           ++ ((deployScribes installRender installDemoVmap).map fun w =>
                .writeReport "scratch" w.summary_hash w.virtual_import_path w.content)
           ++ [.installReports "scratch" "dest"]
         scratchFiles := (InstallerState.mk [] [] []).scratchFiles
           ++ (deployScribes installRender installDemoVmap).map fun w =>
                (w.virtual_import_path, w.content)
         destFiles := (InstallerState.mk [] [] []).scratchFiles
           ++ (deployScribes installRender installDemoVmap).map fun w =>
                (w.virtual_import_path, w.content) }) :=
  ⟨fun _ _ => rfl,
   c6_installer_protocol String (fun _ => false) String.join installRender
     installDemoVmap "scratch" "dest" ⟨[], [], []⟩ (fun _ _ => rfl)⟩

/-- C7: if any `write_report` call or the `install_reports` call fails, the
whole install aborts with that error and the destination is left exactly in
its pre-call state — no partial publish is observable. -/
theorem c7_failure_leaves_destination :
    ∀ (R : Type) (writeFails : String → Bool) (installFails : Bool) (combineFn : List R → R)
      (render : VirtualDependency → WrittenVirtualDependency R)
      (vmap : List (String × VirtualDependency)) (sr dest : String)
      (st : InstallerState) (e : String),
      (virtualDependencyInstaller writeFails installFails combineFn render vmap
          sr dest st).1 = .error e →
      (virtualDependencyInstaller writeFails installFails combineFn render vmap
          sr dest st).2.destFiles = st.destFiles := by
  intro R wf instF combineFn render vmap sr dest st e h
  have hdest := installerLoop_destFiles wf sr (deployScribes render vmap) st []
  simp only [virtualDependencyInstaller] at h ⊢
  cases hloop : installerLoop wf sr (deployScribes render vmap) st [] with
  | mk res p =>
    obtain ⟨st2, reps⟩ := p
    rw [hloop] at hdest
    cases res with
    | error err => exact hdest
    | ok u =>
      cases instF with
      | true => exact hdest
      | false => rw [hloop] at h; simp at h

/-- Pre-call destination state used to evaluate C7. -/
def failDemoState : InstallerState :=
  { events := [], scratchFiles := [], destFiles := [("dest/old_artifact", "OLD")] }

/-- C7 witness: a run whose only `write_report` call fails leaves the
destination files exactly as they were before the call. -/
theorem c7_witness :
    (virtualDependencyInstaller (fun _ => true) false (fun _ => 0)
        (fun _ => ⟨"C", "S", 0, "V"⟩) [("M1", depM1)] "scratch" "dest" failDemoState).1
      = .error "write_report failed: V" ∧
    (virtualDependencyInstaller (fun _ => true) false (fun _ => 0)
        (fun _ => ⟨"C", "S", 0, "V"⟩) [("M1", depM1)] "scratch" "dest" failDemoState).2.destFiles
      = failDemoState.destFiles :=
  ⟨rfl,
   c7_failure_leaves_destination Nat (fun _ => true) false (fun _ => 0)
     (fun _ => ⟨"C", "S", 0, "V"⟩) [("M1", depM1)] "scratch" "dest" failDemoState
     "write_report failed: V" rfl⟩

/-- Concrete combined report for evaluating C8: one concrete alias recorded,
no queryset aliases. -/
def aliasReportExample : CombinedAliasReport :=
  { concrete_aliases := [("myapp.models.Parent", "Concrete__Parent")]
    queryset_aliases := [] }

/-- C8 witness: a two-element query where the second path has no recorded
alias and is mapped to `none`. -/
theorem c8_witness :
    ("myapp.models.Unknown" ∈ ["myapp.models.Parent", "myapp.models.Unknown"]) ∧
    (("myapp.models.Unknown",
        aliasReportExample.concrete_aliases.lookup "myapp.models.Unknown")
      ∈ getConcreteAliases aliasReportExample
          ["myapp.models.Parent", "myapp.models.Unknown"] ∧
     ("myapp.models.Unknown",
        aliasReportExample.queryset_aliases.lookup "myapp.models.Unknown")
      ∈ getQuerysetAliases aliasReportExample
          ["myapp.models.Parent", "myapp.models.Unknown"]) ∧
    (aliasReportExample.concrete_aliases.lookup "myapp.models.Unknown" = none →
      ("myapp.models.Unknown", (none : Option String))
        ∈ getConcreteAliases aliasReportExample
            ["myapp.models.Parent", "myapp.models.Unknown"]) ∧
    (aliasReportExample.queryset_aliases.lookup "myapp.models.Unknown" = none →
      ("myapp.models.Unknown", (none : Option String))
        ∈ getQuerysetAliases aliasReportExample
            ["myapp.models.Parent", "myapp.models.Unknown"]) :=
  ⟨by decide,
   (c8_alias_lookup_total aliasReportExample
      ["myapp.models.Parent", "myapp.models.Unknown"]).2
     "myapp.models.Unknown" (by decide)⟩

open MypyPlugin

/-- C9: whenever the analyzed `Concrete` or `DefaultQuerySet` annotation
carries a number of type arguments different from exactly one,
`Analyzer.analyze_type` emits the error
"Concrete annotations must contain exactly one argument" and returns the
input type unchanged. -/
theorem c9_wrong_arity_fails_unchanged :
    ∀ (apiAnalyze : MType → MType)
      (rewrap resolve : KnownAnnotations → MType → Option MType)
      (annot : KnownAnnotations) (ctxType : MType),
      (typeArgs ctxType).length ≠ 1 →
      analyzeType apiAnalyze rewrap resolve annot ctxType
        = (ctxType, ["Concrete annotations must contain exactly one argument"]) := by
  intro apiAnalyze rewrapF resolveF annot ctxType h
  unfold analyzeType
  cases hargs : typeArgs ctxType with
  | nil => rfl
  | cons x t =>
    cases t with
    | nil => exact absurd (by simp [hargs]) h
    | cons y t2 => rfl

/-- C9 witness: a bare `Concrete` annotation with zero arguments. -/
theorem c9_witness :
    (typeArgs (MType.unbound "extended_mypy_django_plugin.annotations.Concrete" [])).length ≠ 1 ∧
    analyzeType id (fun _ _ => none) (fun _ _ => none) KnownAnnotations.concrete
        (MType.unbound "extended_mypy_django_plugin.annotations.Concrete" [])
      = (MType.unbound "extended_mypy_django_plugin.annotations.Concrete" [],
         ["Concrete annotations must contain exactly one argument"]) :=
  ⟨by decide,
   c9_wrong_arity_fails_unchanged id (fun _ _ => none) (fun _ _ => none)
     KnownAnnotations.concrete
     (MType.unbound "extended_mypy_django_plugin.annotations.Concrete" []) (by decide)⟩

/-- C10: when concrete-annotation resolution collects exactly one concrete
instance for a model, `_concrete_for` resolves to that single instance itself
(wrapped in `type[...]` when the annotation was over a type) and not to a
one-element union; when it collects two or more, the result is the union of
all of them in collection order. -/
theorem c10_resolution_union_shape :
    ∀ (deferred : Bool) (lookupAlias : String → Option (List MType))
      (getAliases : List String → List (String × Option String))
      (fullname : String) (args : List MType) (c c2 : MType) (rest : List MType),
      ((instancesFromAliases lookupAlias getAliases [fullname]).1 = [c] →
        concreteFor deferred lookupAlias getAliases (.inst fullname args)
          = (some c, (instancesFromAliases lookupAlias getAliases [fullname]).2) ∧
        concreteFor deferred lookupAlias getAliases (.typeType (.inst fullname args))
          = (some (wrapTypeType c),
             (instancesFromAliases lookupAlias getAliases [fullname]).2)) ∧
      ((instancesFromAliases lookupAlias getAliases [fullname]).1 = c :: c2 :: rest →
        concreteFor deferred lookupAlias getAliases (.inst fullname args)
          = (some (.union (c :: c2 :: rest)),
             (instancesFromAliases lookupAlias getAliases [fullname]).2) ∧
        concreteFor deferred lookupAlias getAliases (.typeType (.inst fullname args))
          = (some (.union ((c :: c2 :: rest).map wrapTypeType)),
             (instancesFromAliases lookupAlias getAliases [fullname]).2)) := by
  intro deferred lookupAlias getAliases fullname args c c2 rest
  constructor <;> intro h <;> constructor <;>
    simp [concreteFor, flattenUnion, flattenUnionList, isInst, isAny, isUnion,
      instFullname, makeUnion, wrapTypeType, h]

/-- Alias environment for evaluating C10: every queried model has one alias. -/
def demoGetAliases : List String → List (String × Option String) := fun ms =>
  ms.map fun m => (m, some ("Concrete__" ++ m))

/-- Alias lookup resolving every alias to a single concrete child. -/
def demoLookupOne : String → Option (List MType) := fun _ =>
  some [MType.inst "myapp.models.Child1" []]

/-- Alias lookup resolving every alias to two concrete children. -/
def demoLookupTwo : String → Option (List MType) := fun _ =>
  some [MType.inst "myapp.models.Child1" [], MType.inst "myapp.models.Child2" []]

/-- C10 witness: the single-instance case yields the instance itself (and its
`type[...]` wrapping), the two-instance case yields the union in order. -/
theorem c10_witness :
    ((instancesFromAliases demoLookupOne demoGetAliases ["myapp.models.Parent"]).1
        = [MType.inst "myapp.models.Child1" []] ∧
      concreteFor false demoLookupOne demoGetAliases (.inst "myapp.models.Parent" [])
        = (some (MType.inst "myapp.models.Child1" []),
           (instancesFromAliases demoLookupOne demoGetAliases ["myapp.models.Parent"]).2) ∧
      concreteFor false demoLookupOne demoGetAliases
          (.typeType (.inst "myapp.models.Parent" []))
        = (some (wrapTypeType (MType.inst "myapp.models.Child1" [])),
           (instancesFromAliases demoLookupOne demoGetAliases ["myapp.models.Parent"]).2)) ∧
    ((instancesFromAliases demoLookupTwo demoGetAliases ["myapp.models.Parent"]).1
        = MType.inst "myapp.models.Child1" [] :: MType.inst "myapp.models.Child2" [] :: [] ∧
      concreteFor false demoLookupTwo demoGetAliases (.inst "myapp.models.Parent" [])
        = (some (.union (MType.inst "myapp.models.Child1" []
              :: MType.inst "myapp.models.Child2" [] :: [])),
           (instancesFromAliases demoLookupTwo demoGetAliases ["myapp.models.Parent"]).2)) :=
  ⟨⟨rfl,
    (c10_resolution_union_shape false demoLookupOne demoGetAliases "myapp.models.Parent"
      [] (MType.inst "myapp.models.Child1" []) MType.other []).1 rfl⟩,
   rfl,
   ((c10_resolution_union_shape false demoLookupTwo demoGetAliases "myapp.models.Parent"
      [] (MType.inst "myapp.models.Child1" []) (MType.inst "myapp.models.Child2" []) []).2
     rfl).1⟩
